import Mathlib

/-!
# StudyBuddy quiz core: a shallow embedding

This file embeds, in Lean, the algorithmic core of the StudyBuddy backend:
the adaptive difficulty sequencer and batch picker
(`backend/services/question_picker.py`), the quiz assembler
(`backend/services/quiz_selection.py`), the grader
(`backend/services/quiz_grading.py`), the content fingerprint
(`backend/services/hashing.py`), and the in-memory repository that backs
the quiz routes (`backend/db/memory.py`, `backend/routes/quiz.py`).

Embedding conventions:
* Python dicts that flow through the pipeline are modelled as structures
  whose optional keys are `Option` fields; an absent key and a key
  present with value `None` are both `none`.
* Python floats are modelled as exact rationals (`ℚ`); Python's built-in
  banker's rounding is `pyRound` below.
* `random.shuffle` is modelled by an explicit permutation parameter.
* `uuid4()` and `datetime.utcnow()` are modelled by a monotone counter
  `clock` carried in the repository state: every record-creating
  operation stamps the current counter and bumps it, which preserves the
  two properties the code relies on (freshness of ids, monotone time).
-/

/-- Python's built-in `round` on an exact rational: round to the nearest
integer, ties to the even integer (banker's rounding). -/
def pyRound (q : ℚ) : ℤ :=
  let f := ⌊q⌋
  let r := q - f
  if r < 1/2 then f
  else if 1/2 < r then f + 1
  else if f % 2 = 0 then f else f + 1

/-! ## Difficulty sequencer (`question_picker._difficulty_sequence`) -/

/-- Accuracy of an attempt history: correct over total, as an exact rational.
An attempt is represented by the truthiness of its `correct` field. -/
def accuracyOf (attempts : List Bool) : ℚ :=
  (((attempts.filter fun b => b).length : ℚ)) / (attempts.length : ℚ)

/-- `_difficulty_sequence` from `question_picker.py`: map an attempt history
(each attempt reduced to its `correct` flag) to an ordered difficulty
preference list. -/
def difficultySequence (attempts : List Bool) : List String :=
  if attempts = [] then ["easy", "medium"]
  else
    let accuracy := accuracyOf attempts
    if accuracy ≥ 95/100 ∧ attempts.length ≥ 10 then ["medium", "hard", "easy"]
    else if accuracy ≥ 8/10 then ["easy", "medium", "hard"]
    else ["easy"]

/-! ## Per-tier targets of the quiz assembler (`quiz_selection.select_quiz_questions`, lines 75-88) -/

/-- The three per-tier targets of a quiz, after rounding adjustment. -/
structure TierTargets where
  easy : ℤ
  medium : ℤ
  hard : ℤ
deriving DecidableEq

/-- Target counts per difficulty, as computed at the top of
`select_quiz_questions`: `round(question_count * mix[tier])` per tier, then
any rounding drift is pushed into the medium bucket. The three mix
proportions are taken as exact rationals. -/
def targetCounts (question_count : ℕ) (mixEasy mixMedium mixHard : ℚ) : TierTargets :=
  let e := pyRound (question_count * mixEasy)
  let m := pyRound (question_count * mixMedium)
  let h := pyRound (question_count * mixHard)
  let total := e + m + h
  if total < question_count then
    { easy := e, medium := m + (question_count - total), hard := h }
  else if total > question_count then
    { easy := e, medium := m - (total - question_count), hard := h }
  else
    { easy := e, medium := m, hard := h }

/-! ## Per-tier candidate selection of the quiz assembler
(`quiz_selection.select_quiz_questions`, lines 127-145)

For one difficulty tier the assembler partitions the normalized bank
candidates by the learner's seen-set, concatenates `unseen + seen`, calls
`random.shuffle` on that concatenated list, and takes the first `target`.
The shuffle is modelled by an explicit `shuffle` parameter; any permutation
of its input is a possible outcome of `random.shuffle`. -/

/-- A bank candidate as seen by the tier-selection step: only its content
hash is inspected there; `id` keeps candidates tellable apart. -/
structure BankQuestion where
  id : String
  hash : String
deriving DecidableEq

/-- Lines 127-139 of `select_quiz_questions` for a single tier:
partition by seen-set (skipping hashes already placed in this quiz),
concatenate unseen before seen, shuffle the concatenated list, take
the first `target`. -/
def selectForTier (allQuestions : List BankQuestion) (seenHashes : List String)
    (questionHashes : List String) (shuffle : List BankQuestion → List BankQuestion)
    (target : ℕ) : List BankQuestion :=
  let unseen := allQuestions.filter fun q =>
    ¬ seenHashes.contains q.hash ∧ ¬ questionHashes.contains q.hash
  let alreadySeen := allQuestions.filter fun q =>
    seenHashes.contains q.hash ∧ ¬ questionHashes.contains q.hash
  let available := shuffle (unseen ++ alreadySeen)
  available.take target

/-! ## Quiz grading (`quiz_grading.grade_quiz`) -/

/-- A locked quiz-session slot as consumed by `grade_quiz`: the fields of
the joined session-question dict that the grader reads. -/
structure LockedQuestion where
  question_id : String
  index : ℕ
  stem : String
  options : List String
  correct_choice : String
  explanation : String
deriving DecidableEq

/-- A submitted answer as sent to the submit route (`QuizSubmitRequest`):
question id and selected choice. -/
structure SubmittedAnswer where
  question_id : String
  selected_choice : String
deriving DecidableEq

/-- One entry of `incorrect_items` built by `grade_quiz`. -/
structure IncorrectItem where
  question_id : String
  index : ℕ
  stem : String
  options : List String
  selected_choice : String
  correct_choice : String
  explanation : String
deriving DecidableEq

/-- `QuizGradingResult` from `quiz_grading.py`. -/
structure QuizGradingResult where
  score : ℤ
  correct_count : ℕ
  total_questions : ℕ
  unanswered_count : ℕ
  incorrect_items : List IncorrectItem
  time_taken_sec : ℤ
deriving DecidableEq

/-- The `answer_map` dict comprehension of `grade_quiz`: maps a question id
to the selected choice of the *last* answer carrying that id (a Python dict
comprehension lets later entries overwrite earlier ones). -/
def answerLookup (answers : List SubmittedAnswer) (qid : String) : Option String :=
  (answers.reverse.find? fun a => a.question_id == qid).map fun a => a.selected_choice

/-- The incorrect-items entry `grade_quiz` appends for question `q` when the
(possibly absent) selected choice `sel` is not correct. -/
def mkIncorrectItem (q : LockedQuestion) (sel : String) : IncorrectItem :=
  { question_id := q.question_id, index := q.index, stem := q.stem, options := q.options,
    selected_choice := sel, correct_choice := q.correct_choice, explanation := q.explanation }

/-- The per-question accumulator step of `grade_quiz`'s main loop over
`questions`: state is (correct_count, unanswered_count, incorrect_items). -/
def gradeStep (answers : List SubmittedAnswer) (acc : ℕ × ℕ × List IncorrectItem)
    (question : LockedQuestion) : ℕ × ℕ × List IncorrectItem :=
  match answerLookup answers question.question_id with
  | none =>
      (acc.1, acc.2.1 + 1, acc.2.2 ++ [mkIncorrectItem question ""])
  | some selected_choice =>
      if selected_choice = question.correct_choice then (acc.1 + 1, acc.2.1, acc.2.2)
      else (acc.1, acc.2.1, acc.2.2 ++ [mkIncorrectItem question selected_choice])

/-- `grade_quiz` from `quiz_grading.py`. The wall-clock reads are passed in
as `started_at` and `now` (epoch seconds). -/
def gradeQuiz (questions : List LockedQuestion) (answers : List SubmittedAnswer)
    (started_at now : ℤ) : QuizGradingResult :=
  let acc := questions.foldl (gradeStep answers) (0, 0, [])
  let total_questions := questions.length
  let score : ℤ :=
    if total_questions = 0 then 0
    else pyRound ((acc.1 : ℚ) / (total_questions : ℚ) * 100)
  { score := score, correct_count := acc.1, total_questions := total_questions,
    unanswered_count := acc.2.1, incorrect_items := acc.2.2,
    time_taken_sec := now - started_at }

/-! ## Content fingerprint (`services/hashing.py`)

`hash_question(stem, options, answer)` serializes
`{"stem": stem, "options": options, "answer": answer}` with
`json.dumps(..., sort_keys=True)` (keys sorted, default separators,
`ensure_ascii=True`), UTF-8-encodes the text and returns the lowercase
hex SHA-256 digest. The SHA-256 below is FIPS 180-4 over `ℕ` with
explicit reduction mod 2^32. -/

/-- Lowercase hex digit for `n < 16`. -/
def hexDigit (n : ℕ) : Char :=
  if n < 10 then Char.ofNat (48 + n) else Char.ofNat (87 + n % 16)

/-- Fixed-width lowercase hex of `n`: `width` nibbles, most significant first. -/
def toHexFixed (width n : ℕ) : String :=
  String.mk ((List.range width).map fun i => hexDigit (n / 16 ^ (width - 1 - i) % 16))

/-- JSON escape of one character, exactly as `json.dumps` with
`ensure_ascii=True` renders it (short escapes, `\uXXXX` for other control
or non-ASCII characters, surrogate pairs beyond the BMP). -/
def jsonEscapeChar (c : Char) : String :=
  if c = Char.ofNat 34 then "\\\""
  else if c = Char.ofNat 92 then "\\\\"
  else if c = Char.ofNat 8 then "\\b"
  else if c = Char.ofNat 9 then "\\t"
  else if c = Char.ofNat 10 then "\\n"
  else if c = Char.ofNat 12 then "\\f"
  else if c = Char.ofNat 13 then "\\r"
  else if c.toNat < 32 ∨ c.toNat ≥ 127 then
    if c.toNat < 65536 then "\\u" ++ toHexFixed 4 c.toNat
    else
      let v := c.toNat - 65536
      "\\u" ++ toHexFixed 4 (55296 + v / 1024) ++ "\\u" ++ toHexFixed 4 (56320 + v % 1024)
  else String.singleton c

/-- A JSON string literal as `json.dumps` renders it. -/
def jsonStringLit (s : String) : String :=
  "\"" ++ String.join (s.toList.map jsonEscapeChar) ++ "\""

/-- The serialized payload of `hash_question`:
`json.dumps(\x7b"stem": stem, "options": options, "answer": answer\x7d, sort_keys=True)`
— keys in sorted order (`answer`, `options`, `stem`), default separators. -/
def hashPayload (stem : String) (options : List String) (answer : String) : String :=
  "\x7b\"answer\": " ++ jsonStringLit answer ++
  ", \"options\": [" ++ String.intercalate ", " (options.map jsonStringLit) ++ "]" ++
  ", \"stem\": " ++ jsonStringLit stem ++ "\x7d"

/-- UTF-8 encoding of a string as a list of byte values. -/
def utf8Bytes (s : String) : List ℕ :=
  (s.toList.map fun c =>
    let n := c.toNat
    if n < 128 then [n]
    else if n < 2048 then [192 + n / 64, 128 + n % 64]
    else if n < 65536 then [224 + n / 4096, 128 + n / 64 % 64, 128 + n % 64]
    else [240 + n / 262144, 128 + n / 4096 % 64, 128 + n / 64 % 64, 128 + n % 64]).flatten

/-- Reduction to a 32-bit word. -/
def w32 (n : ℕ) : ℕ := n % 4294967296

/-- 32-bit right rotation. -/
def rotr32 (n x : ℕ) : ℕ := w32 ((x >>> n) ||| (x <<< (32 - n)))

/-- SHA-256 `Σ₀`. -/
def shaBigSigma0 (x : ℕ) : ℕ := rotr32 2 x ^^^ rotr32 13 x ^^^ rotr32 22 x
/-- SHA-256 `Σ₁`. -/
def shaBigSigma1 (x : ℕ) : ℕ := rotr32 6 x ^^^ rotr32 11 x ^^^ rotr32 25 x
/-- SHA-256 `σ₀`. -/
def shaSmallSigma0 (x : ℕ) : ℕ := rotr32 7 x ^^^ rotr32 18 x ^^^ (x >>> 3)
/-- SHA-256 `σ₁`. -/
def shaSmallSigma1 (x : ℕ) : ℕ := rotr32 17 x ^^^ rotr32 19 x ^^^ (x >>> 10)
/-- SHA-256 `Ch` (`¬x` is xor with the all-ones 32-bit word). -/
def shaCh (x y z : ℕ) : ℕ := (x &&& y) ^^^ ((x ^^^ 4294967295) &&& z)
/-- SHA-256 `Maj`. -/
def shaMaj (x y z : ℕ) : ℕ := (x &&& y) ^^^ (x &&& z) ^^^ (y &&& z)

/-- The 64 SHA-256 round constants `K`, FIPS 180-4 §4.2.2, written in
decimal. -/
def shaK : List ℕ :=
  [1116352408, 1899447441, 3049323471, 3921009573, 961987163,
   1508970993, 2453635748, 2870763221, 3624381080, 310598401,
   607225278, 1426881987, 1925078388, 2162078206, 2614888103,
   3248222580, 3835390401, 4022224774, 264347078, 604807628,
   770255983, 1249150122, 1555081692, 1996064986, 2554220882,
   2821834349, 2952996808, 3210313671, 3336571891, 3584528711,
   113926993, 338241895, 666307205, 773529912, 1294757372,
   1396182291, 1695183700, 1986661051, 2177026350, 2456956037,
   2730485921, 2820302411, 3259730800, 3345764771, 3516065817,
   3600352804, 4094571909, 275423344, 430227734, 506948616,
   659060556, 883997877, 958139571, 1322822218, 1537002063,
   1747873779, 1955562222, 2024104815, 2227730452, 2361852424,
   2428436474, 2756734187, 3204031479, 3329325298]

/-- The eight SHA-256 initial hash words `H`, FIPS 180-4 §5.3.3, written
in decimal. -/
def shaH0 : List ℕ :=
  [1779033703, 3144134277, 1013904242,
   2773480762, 1359893119, 2600822924,
   528734635, 1541459225]

/-- SHA-256 padding: `0x80`, zeros, then the bit length as 8 big-endian
bytes, to a multiple of 64 bytes. -/
def shaPad (msg : List ℕ) : List ℕ :=
  let len := msg.length
  let zeros := (119 - len % 64) % 64
  let bitLen := 8 * len
  msg ++ [128] ++ List.replicate zeros 0 ++
    ((List.range 8).map fun i => bitLen / 256 ^ (7 - i) % 256)

/-- Split a byte list into 64-byte blocks. -/
def toBlocks : List ℕ → List (List ℕ)
  | [] => []
  | x :: xs => ((x :: xs).take 64) :: toBlocks ((x :: xs).drop 64)
termination_by l => l.length
decreasing_by simp only [List.length_drop, List.length_cons]; omega

/-- The 16 initial 32-bit message words of one 64-byte block (big-endian). -/
def blockWords (block : List ℕ) : List ℕ :=
  (List.range 16).map fun i =>
    block.getD (4 * i) 0 * 16777216 + block.getD (4 * i + 1) 0 * 65536 +
      block.getD (4 * i + 2) 0 * 256 + block.getD (4 * i + 3) 0

/-- The full 64-word message schedule of one block. -/
def messageSchedule (block : List ℕ) : List ℕ :=
  (List.range 48).foldl
    (fun ws _ =>
      let n := ws.length
      ws ++ [w32 (ws.getD (n - 16) 0 + shaSmallSigma0 (ws.getD (n - 15) 0) +
                  ws.getD (n - 7) 0 + shaSmallSigma1 (ws.getD (n - 2) 0))])
    (blockWords block)

/-- One SHA-256 compression round over the working variables `[a…h]`. -/
def shaRound (ws : List ℕ) (st : List ℕ) (i : ℕ) : List ℕ :=
  match st with
  | [a, b, c, d, e, f, g, h] =>
      let t1 := w32 (h + shaBigSigma1 e + shaCh e f g + shaK.getD i 0 + ws.getD i 0)
      let t2 := w32 (shaBigSigma0 a + shaMaj a b c)
      [w32 (t1 + t2), a, b, c, w32 (d + t1), e, f, g]
  | other => other

/-- SHA-256 compression of one 64-byte block into the 8-word state. -/
def shaCompress (state : List ℕ) (block : List ℕ) : List ℕ :=
  let ws := messageSchedule block
  let final := (List.range 64).foldl (shaRound ws) state
  List.zipWith (fun x y => w32 (x + y)) state final

/-- SHA-256 of a byte list, as the 8-word digest state. -/
def sha256Words (msg : List ℕ) : List ℕ :=
  (toBlocks (shaPad msg)).foldl shaCompress shaH0

/-- SHA-256 of a byte list, as the lowercase hex digest string. -/
def sha256Hex (msg : List ℕ) : String :=
  String.join ((sha256Words msg).map (toHexFixed 8))

/-- `hash_question` from `services/hashing.py`. -/
def hashQuestion (stem : String) (options : List String) (answer : String) : String :=
  sha256Hex (utf8Bytes (hashPayload stem options answer))

/-! ## The in-memory repository (`backend/db/memory.py`)

Python dicts keyed by id are modelled as insertion-ordered lists with
dict-assignment semantics (replace in place, else append). `uuid4()` and
`datetime.utcnow()` are both modelled by the monotone `clock` counter of
the state: fresh ids are `"uuid-" ++ clock` and timestamps are the
current counter value (seconds); record-creating operations bump it. -/

/-- Python truthiness of an optional string (`None` and `""` are falsy). -/
def optTruthyStr : Option String → Bool
  | none => false
  | some s => !s.isEmpty

/-- Python `x or default` where `x` is an optional/possibly-empty string. -/
def pyOrStr (x : Option String) (default : String) : String :=
  match x with
  | none => default
  | some s => if s.isEmpty then default else s

/-- `ChildRecord` from `memory.py`. -/
structure ChildRecord where
  id : String
  parent_id : String
  name : String
  birthdate : Option String
  grade : Option ℤ
  zip : Option String
deriving DecidableEq

/-- `QuestionRecord` from `memory.py`. -/
structure QuestionRecord where
  id : String
  standard_ref : String
  subject : String
  grade : Option ℤ
  topic : Option String
  sub_topic : Option String
  difficulty : Option String
  stem : String
  options : List String
  correct_answer : String
  rationale : Option String
  source : Option String
  hash : String
  created_at : ℕ
deriving DecidableEq

/-- `AttemptRecord` from `memory.py`. -/
structure AttemptRecord where
  id : String
  child_id : String
  question_id : String
  selected : String
  correct : Bool
  time_spent_ms : ℕ
  created_at : ℕ
deriving DecidableEq

/-- `QuizSessionRecord` from `memory.py`; status is `"active"`,
`"completed"` or `"expired"`. -/
structure QuizSessionRecord where
  id : String
  child_id : String
  subject : String
  topic : String
  subtopic : Option String
  status : String
  duration_sec : ℤ
  difficulty_mix_config : List (String × ℚ)
  started_at : ℕ
  submitted_at : Option ℕ
  score : Option ℤ
  total_questions : ℕ
  created_at : Option ℕ
deriving DecidableEq

/-- `QuizSessionQuestionRecord` from `memory.py`. -/
structure QuizSessionQuestionRecord where
  id : String
  quiz_session_id : String
  question_id : String
  index : ℕ
  correct_choice : String
  explanation : String
  selected_choice : Option String
  is_correct : Option Bool
deriving DecidableEq

/-- A question dict as it flows through inserts, upserts and the picker
pipeline. Optional keys are `Option` fields (an absent key and a key
holding `None` are both `none`); `stem`, `options`, `correct_answer` and
`standard_ref` carry the neutral defaults the code reads them with. -/
structure QuestionPayload where
  id : Option String := none
  question_id : Option String := none
  standard_ref : String := ""
  subject : Option String := none
  grade : Option ℤ := none
  topic : Option String := none
  sub_topic : Option String := none
  subtopic : Option String := none
  difficulty : Option String := none
  stem : String
  options : List String := []
  correct_answer : String := ""
  rationale : Option String := none
  source : Option String := none
  hash : Option String := none
deriving DecidableEq

/-- An answer dict as passed to `MemoryRepository.submit_quiz_session`. -/
structure RepoAnswer where
  question_id : String
  selected_choice : Option String := none
  is_correct : Option Bool := none
deriving DecidableEq

/-- The mutable state of `MemoryRepository` (the parts the quiz core
touches), plus the `clock` counter modelling `uuid4()`/`utcnow()`. -/
structure MemoryRepo where
  children : List ChildRecord := []
  questions : List QuestionRecord := []
  attempts : List AttemptRecord := []
  seen_hashes : List (String × List String) := []
  quiz_sessions : List QuizSessionRecord := []
  quiz_session_questions : List QuizSessionQuestionRecord := []
  clock : ℕ := 0
deriving DecidableEq

/-- A fresh `uuid4()` under the clock model. -/
def freshId (st : MemoryRepo) : String := "uuid-" ++ toString st.clock

/-- Python dict assignment `self.questions[r.id] = r`: replace the entry
with that key in place, else append. -/
def dictUpdateQuestion (qs : List QuestionRecord) (r : QuestionRecord) : List QuestionRecord :=
  if qs.any fun q => q.id == r.id then qs.map fun q => if q.id == r.id then r else q
  else qs ++ [r]

/-- Python dict assignment `self.quiz_sessions[r.id] = r`. -/
def dictUpdateSession (ss : List QuizSessionRecord) (r : QuizSessionRecord) :
    List QuizSessionRecord :=
  if ss.any fun s => s.id == r.id then ss.map fun s => if s.id == r.id then r else s
  else ss ++ [r]

/-- `MemoryRepository.child_belongs_to_parent`. -/
def childBelongsToParent (st : MemoryRepo) (child_id parent_id : String) : Bool :=
  match st.children.find? fun c => c.id == child_id with
  | some child => child.parent_id == parent_id
  | none => false

/-- `MemoryRepository.list_seen_question_hashes`. -/
def listSeenQuestionHashes (st : MemoryRepo) (child_id : String) : List String :=
  match st.seen_hashes.find? fun e => e.1 == child_id with
  | some e => e.2
  | none => []

/-- `MemoryRepository.list_child_attempts`. -/
def listChildAttempts (st : MemoryRepo) (child_id : String) : List AttemptRecord :=
  st.attempts.filter fun a => a.child_id == child_id

/-- The per-record filter of `MemoryRepository.list_questions` (each
`continue` in the source is one conjunct here). -/
def questionMatches (record : QuestionRecord) (subject : String) (topic : Option String)
    (grade : Option ℤ) (subtopic : Option String) (difficulties_set : List String)
    (exclude : List String) : Bool :=
  record.subject == subject &&
  (!(optTruthyStr topic) || record.topic == topic) &&
  (grade.isNone || record.grade.isNone || record.grade == grade) &&
  (subtopic.isNone || record.sub_topic == subtopic) &&
  (difficulties_set.isEmpty || difficulties_set.contains (pyOrStr record.difficulty "easy")) &&
  !(exclude.contains record.hash)

/-- `MemoryRepository.list_questions`: filter the bank, then sort by
`created_at` (Python's stable sort is `List.mergeSort`). -/
def listQuestions (st : MemoryRepo) (subject : String) (topic : Option String)
    (grade : Option ℤ) (subtopic : Option String) (difficulties : List String)
    (exclude_hashes : List String) : List QuestionRecord :=
  let difficulties_set := difficulties.filter fun d => !d.isEmpty
  let results := st.questions.filter fun record =>
    questionMatches record subject topic grade subtopic difficulties_set exclude_hashes
  results.mergeSort fun a b => a.created_at ≤ b.created_at

/-- `MemoryRepository.count_questions`. -/
def countQuestions (st : MemoryRepo) (subject : String) (topic : Option String)
    (grade : Option ℤ) (subtopic : Option String) : ℕ :=
  (listQuestions st subject topic grade subtopic [] []).length

/-- One iteration of `MemoryRepository.insert_questions`: compute the hash
(`payload.get("hash") or hash_question(...)`), skip if any stored row
already carries it, else store a new record under a fresh id when the
payload has none. -/
def insertOneQuestion (st : MemoryRepo) (payload : QuestionPayload) : MemoryRepo :=
  let question_hash := pyOrStr payload.hash
    (hashQuestion payload.stem payload.options payload.correct_answer)
  if st.questions.any fun q => q.hash == question_hash then st
  else
    let record : QuestionRecord :=
      { id := payload.id.getD (freshId st),
        standard_ref := payload.standard_ref,
        subject := payload.subject.getD "math",
        grade := payload.grade,
        topic := payload.topic,
        sub_topic := payload.sub_topic,
        difficulty := payload.difficulty,
        stem := payload.stem,
        options := payload.options,
        correct_answer := payload.correct_answer,
        rationale := payload.rationale,
        source := payload.source,
        hash := question_hash,
        created_at := st.clock }
    { st with questions := dictUpdateQuestion st.questions record, clock := st.clock + 1 }

/-- `MemoryRepository.insert_questions`. -/
def insertQuestions (st : MemoryRepo) (payloads : List QuestionPayload) : MemoryRepo :=
  payloads.foldl insertOneQuestion st

/-- `MemoryRepository.upsert_question`: store a record keyed by
`question.get("id") or str(uuid4())`; the hash is stored as
`question.get("hash", "")` and is never consulted. -/
def upsertQuestion (st : MemoryRepo) (question : QuestionPayload) : MemoryRepo :=
  let q_id := pyOrStr question.id (freshId st)
  let record : QuestionRecord :=
    { id := q_id,
      standard_ref := question.standard_ref,
      subject := question.subject.getD "",
      grade := question.grade,
      topic := question.topic,
      sub_topic := question.subtopic,
      difficulty := question.difficulty,
      stem := question.stem,
      options := question.options,
      correct_answer := question.correct_answer,
      rationale := some (question.rationale.getD ""),
      source := some (question.source.getD "generated"),
      hash := question.hash.getD "",
      created_at := st.clock }
  { st with questions := dictUpdateQuestion st.questions record, clock := st.clock + 1 }

/-- `MemoryRepository.get_quiz_session` (the record, not the dict copy). -/
def getQuizSession (st : MemoryRepo) (session_id : String) : Option QuizSessionRecord :=
  st.quiz_sessions.find? fun s => s.id == session_id

/-- The slot update of `submit_quiz_session`: one answer dict is written
into every slot of the session carrying its question id
(`selected_choice` defaults to `""`, `is_correct` to `False`). -/
def applyAnswer (session_id : String) (qs : List QuizSessionQuestionRecord)
    (answer : RepoAnswer) : List QuizSessionQuestionRecord :=
  qs.map fun sq =>
    if sq.quiz_session_id == session_id && sq.question_id == answer.question_id then
      { sq with selected_choice := some (answer.selected_choice.getD ""),
                is_correct := some (answer.is_correct.getD false) }
    else sq

/-- The score recount of `submit_quiz_session` (its middle block): after
the answers are written into the slots, a slot counts as correct only
when its `is_correct` flag is truthy, i.e. `some true`. -/
def submitScore (st : MemoryRepo) (session_id : String) (answers : List RepoAnswer) : ℤ :=
  let updated := answers.foldl (applyAnswer session_id) st.quiz_session_questions
  let session_questions := updated.filter fun q => q.quiz_session_id == session_id
  let correct_count := (session_questions.filter fun q => q.is_correct == some true).length
  let total := session_questions.length
  if total > 0 then pyRound ((correct_count : ℚ) / (total : ℚ) * 100) else 0

/-- `MemoryRepository.submit_quiz_session`: write the answers into the
session's slots, recount the score from the slots' `is_correct` flags
(`submitScore`), then mark the session completed. -/
def submitQuizSession (st : MemoryRepo) (session_id : String) (answers : List RepoAnswer) :
    Option QuizSessionRecord × MemoryRepo :=
  let updated := answers.foldl (applyAnswer session_id) st.quiz_session_questions
  let score : ℤ := submitScore st session_id answers
  match st.quiz_sessions.find? fun s => s.id == session_id with
  | some session =>
      let updated_session :=
        { session with status := "completed", submitted_at := some st.clock, score := some score }
      (some updated_session,
       { st with quiz_session_questions := updated,
                 quiz_sessions := dictUpdateSession st.quiz_sessions updated_session,
                 clock := st.clock + 1 })
  | none => (none, { st with quiz_session_questions := updated })

/-- `MemoryRepository.expire_quiz_session`: set the status of the session
to `"expired"` whenever the session exists — with no look at its current
status. -/
def expireQuizSession (st : MemoryRepo) (session_id : String) :
    Option QuizSessionRecord × MemoryRepo :=
  match st.quiz_sessions.find? fun s => s.id == session_id with
  | some session =>
      let updated_session := { session with status := "expired" }
      (some updated_session,
       { st with quiz_sessions := dictUpdateSession st.quiz_sessions updated_session })
  | none => (none, st)

/-- A session slot joined with its bank question, as returned by
`MemoryRepository.get_quiz_session_questions`. -/
structure JoinedSlot where
  slot : QuizSessionQuestionRecord
  stem : String
  options : List String
  subject : String
  topic : Option String
  difficulty : Option String
deriving DecidableEq

/-- `MemoryRepository.get_quiz_session_questions`: the session's slots
sorted by index, each joined with its bank question; slots whose question
is missing from the bank are dropped. -/
def getQuizSessionQuestions (st : MemoryRepo) (session_id : String) : List JoinedSlot :=
  let session_questions :=
    (st.quiz_session_questions.filter fun q => q.quiz_session_id == session_id).mergeSort
      fun a b => a.index ≤ b.index
  session_questions.filterMap fun sq =>
    (st.questions.find? fun q => q.id == sq.question_id).map fun question =>
      { slot := sq, stem := question.stem, options := question.options,
        subject := question.subject, topic := question.topic,
        difficulty := question.difficulty }

/-! ## Quiz routes (`backend/routes/quiz.py`)

The HTTP layer is modelled as functions from repository state to an
outcome plus the new state; `datetime.utcnow()` in a route reads the
state's `clock`. Authentication has already resolved the parent id. -/

/-- The `QuizResult` response model of the submit route. -/
structure QuizResultModel where
  session_id : String
  score : ℤ
  correct_count : ℕ
  total_questions : ℕ
  time_taken_sec : ℤ
  incorrect_items : List IncorrectItem
  submitted_at : Option ℕ
deriving DecidableEq

/-- Outcome of `submit_quiz`: 404, 403, 400 `"Quiz already submitted"`,
410 `"Quiz session has expired"`, or the graded result. -/
inductive SubmitOutcome where
  | notFound
  | forbidden
  | alreadySubmitted
  | gone
  | ok (result : QuizResultModel)
deriving DecidableEq

/-- Whether a submit outcome is the 200 path. -/
def SubmitOutcome.isOk : SubmitOutcome → Bool
  | .ok _ => true
  | _ => false

/-- Projection of a joined session slot onto the fields `grade_quiz`
reads from the question dict. -/
def slotToLocked (j : JoinedSlot) : LockedQuestion :=
  { question_id := j.slot.question_id, index := j.slot.index, stem := j.stem,
    options := j.options, correct_choice := j.slot.correct_choice,
    explanation := j.slot.explanation }

/-- `submit_quiz` from `routes/quiz.py`: guards in source order (missing
session, foreign child, completed, expired), then grade, then persist via
`submit_quiz_session` with answer dicts holding only `question_id` and
`selected_choice`. The submit route performs no session-age check. -/
def submitQuizRoute (st : MemoryRepo) (parent_id session_id : String)
    (answers : List SubmittedAnswer) : SubmitOutcome × MemoryRepo :=
  match getQuizSession st session_id with
  | none => (.notFound, st)
  | some session =>
    if !(childBelongsToParent st session.child_id parent_id) then (.forbidden, st)
    else if session.status == "completed" then (.alreadySubmitted, st)
    else if session.status == "expired" then (.gone, st)
    else
      let questions := (getQuizSessionQuestions st session_id).map slotToLocked
      let grading := gradeQuiz questions answers (session.started_at : ℤ) (st.clock : ℤ)
      let answers_list : List RepoAnswer := answers.map fun a =>
        { question_id := a.question_id, selected_choice := some a.selected_choice,
          is_correct := none }
      match submitQuizSession st session_id answers_list with
      | (some updated_session, st') =>
          (.ok { session_id := session_id, score := grading.score,
                 correct_count := grading.correct_count,
                 total_questions := grading.total_questions,
                 time_taken_sec := grading.time_taken_sec,
                 incorrect_items := grading.incorrect_items,
                 submitted_at := updated_session.submitted_at }, st')
      | (none, st') => (.notFound, st')

/-- Outcome of the expire route. -/
inductive ExpireOutcome where
  | notFound
  | forbidden
  | badRequest
  | ok (session : QuizSessionRecord)
deriving DecidableEq

/-- `expire_quiz` from `routes/quiz.py`: find the session, check
ownership, then call `expire_quiz_session` unconditionally. -/
def expireQuizRoute (st : MemoryRepo) (parent_id session_id : String) :
    ExpireOutcome × MemoryRepo :=
  match getQuizSession st session_id with
  | none => (.notFound, st)
  | some session =>
    if !(childBelongsToParent st session.child_id parent_id) then (.forbidden, st)
    else
      match expireQuizSession st session_id with
      | (some expired_session, st') => (.ok expired_session, st')
      | (none, st') => (.badRequest, st')

/-! ## The adaptive picker (`services/question_picker.py`) -/

/-- `MIN_STOCK_THRESHOLD` from `question_picker.py`. -/
def MIN_STOCK_THRESHOLD : ℤ := 10

/-- `GenerationContext` from `services/genai.py` as the picker fills it. -/
structure GenerationContext where
  subject : String
  topic : Option String
  subtopic : Option String
  grade : Option ℤ
  difficulty : String
  count : ℕ
deriving DecidableEq

/-- One row of `repo.list_subtopics`. -/
structure SubtopicRow where
  subtopic : String
  sequence_order : Option ℤ
deriving DecidableEq

/-- `MemoryRepository.list_subtopics` is a stub in memory mode: always `[]`. -/
def listSubtopics (st : MemoryRepo) (subject : String) (grade : Option ℤ)
    (topic : Option String) : List SubtopicRow := []

/-- `select_next_subtopic` from `question_picker.py`: none when the
catalog is empty, else the subtopic with the most unseen questions, ties
broken by `sequence_order` (sort key `(-unseen, sequence_order)`). -/
def selectNextSubtopic (st : MemoryRepo) (child_id subject topic : String)
    (grade : Option ℤ) : Option String :=
  let subtopics := listSubtopics st subject grade (some topic)
  if subtopics.isEmpty then none
  else
    let seen_hashes := listSeenQuestionHashes st child_id
    let subtopic_scores := subtopics.map fun srow =>
      let all_questions := listQuestions st subject (some topic) grade (some srow.subtopic) [] []
      let unseen := (all_questions.filter fun q => !(seen_hashes.contains q.hash)).length
      (srow.subtopic, unseen, srow.sequence_order.getD 999)
    let sorted := subtopic_scores.mergeSort fun a b =>
      b.2.1 < a.2.1 || (a.2.1 == b.2.1 && a.2.2 ≤ b.2.2)
    sorted.head?.map fun top => top.1

/-- `_normalise_question` from `question_picker.py` (note the
`topic or subject` default for the topic key). -/
def normaliseQuestion (question : QuestionPayload) (subject : String) (topic : Option String)
    (grade : Option ℤ) (difficulty : String) : QuestionPayload :=
  let q := { question with
    id := question.id <|> question.question_id,
    subject := some (question.subject.getD subject),
    topic := some (question.topic.getD (pyOrStr topic subject)),
    difficulty := some (question.difficulty.getD difficulty),
    grade := question.grade <|> grade,
    source := some (question.source.getD "generated"),
    rationale := some (question.rationale.getD "") }
  { q with hash := some (pyOrStr q.hash (hashQuestion q.stem q.options q.correct_answer)) }

/-- `_unique_questions` from `question_picker.py`: drop payloads whose
hash is already in the (mutated) seen set; returns the survivors and the
grown set. -/
def uniqueQuestions (questions : List QuestionPayload) (seen_hashes : List String) :
    List QuestionPayload × List String :=
  questions.foldl
    (fun acc question =>
      let h := question.hash.getD ""
      if acc.2.contains h then acc
      else (acc.1 ++ [question], acc.2 ++ [h]))
    ([], seen_hashes)

/-- `MemoryRepository._question_to_dict`. -/
def questionToDict (r : QuestionRecord) : QuestionPayload :=
  { id := some r.id, question_id := none, standard_ref := r.standard_ref,
    subject := some r.subject, grade := r.grade, topic := r.topic,
    sub_topic := r.sub_topic, subtopic := none, difficulty := r.difficulty,
    stem := r.stem, options := r.options, correct_answer := r.correct_answer,
    rationale := r.rationale, source := r.source, hash := some r.hash }

/-- `QuestionBatch` from `question_picker.py`. -/
structure QuestionBatch where
  questions : List QuestionPayload
  stock_deficit : ℤ
  selected_subtopic : Option String
deriving DecidableEq

/-- One iteration of `fetch_batch`'s pick loop: stop at `limit`, skip
hashes already seen in this session, else pick and record the hash. -/
def pickStep (limit : ℕ) (acc : List QuestionPayload × List String)
    (question : QuestionPayload) : List QuestionPayload × List String :=
  if acc.1.length ≥ limit then acc
  else if acc.2.contains (question.hash.getD "") then acc
  else (acc.1 ++ [question], acc.2 ++ [question.hash.getD ""])

/-- The subtopic-resolution step at the top of `fetch_batch`: auto-select
only when the caller did not pin a subtopic and the topic is truthy. -/
def resolveSubtopic (st : MemoryRepo) (child : ChildRecord) (subject : String)
    (topic : Option String) (subtopic : Option String) : Option String :=
  if subtopic.isNone && optTruthyStr topic then
    selectNextSubtopic st child.id subject (topic.getD "") child.grade
  else subtopic

/-- The bank walk of `fetch_batch`, after the subtopic has been resolved:
fetch unseen questions for each preferred difficulty tier in order and
concatenate them. -/
def fetchAvailable (st : MemoryRepo) (child : ChildRecord) (subject : String)
    (topic : Option String) (subtopic : Option String) : List QuestionPayload :=
  let grade := child.grade
  let attempts := (listChildAttempts st child.id).map fun a => a.correct
  let difficulty_preferences := difficultySequence attempts
  let seen_hashes := listSeenQuestionHashes st child.id
  difficulty_preferences.foldl
    (fun acc difficulty =>
      let fetched := (listQuestions st subject topic grade subtopic [difficulty] seen_hashes).map
        questionToDict
      let fetched := fetched.map fun q =>
        { q with difficulty := some (q.difficulty.getD difficulty) }
      acc ++ fetched)
    []

/-- The pick loop of `fetch_batch`: walk the available questions, taking
up to `limit` with per-session hash dedup; the second component is the
`seen_for_session` set grown by the loop. -/
def pickPhase (st : MemoryRepo) (child : ChildRecord) (subject : String)
    (topic : Option String) (subtopic : Option String) (limit : ℕ) :
    List QuestionPayload × List String :=
  (fetchAvailable st child subject topic subtopic).foldl (pickStep limit)
    ([], listSeenQuestionHashes st child.id)

/-- The picking-and-generation phase of `fetch_batch`, after the subtopic
has been resolved: pick up to `limit` deduplicated questions from the
bank, fill any deficit from the generator (normalized, deduplicated,
persisted via `insert_questions`). Returns the picked list and the
repository state. -/
def fetchPicked (st : MemoryRepo) (child : ChildRecord) (subject : String)
    (topic : Option String) (subtopic : Option String) (limit : ℕ)
    (generator : GenerationContext → List QuestionPayload) :
    List QuestionPayload × MemoryRepo :=
  let grade := child.grade
  let attempts := (listChildAttempts st child.id).map fun a => a.correct
  let difficulty_preferences := difficultySequence attempts
  let pickState := pickPhase st child subject topic subtopic limit
  let picked := pickState.1
  let seen_for_session := pickState.2
  let deficit := limit - picked.length
  if deficit > 0 then
    let preferred_difficulty := difficulty_preferences.headD "easy"
    let ctx : GenerationContext :=
      { subject := subject, topic := topic, subtopic := subtopic, grade := grade,
        difficulty := preferred_difficulty, count := deficit }
    let generated := (generator ctx).map fun item =>
      normaliseQuestion item subject topic grade preferred_difficulty
    let generated := generated.map fun q => { q with sub_topic := q.sub_topic <|> subtopic }
    let generated := (uniqueQuestions generated seen_for_session).1
    if !generated.isEmpty then (picked ++ generated.take deficit, insertQuestions st generated)
    else (picked, st)
  else (picked, st)

/-- `fetch_batch` from `question_picker.py`: resolve the subtopic, pick
and generate, then compute the restock signal for the exact resolved
subtopic from the post-insert bank count. -/
def fetchBatch (st : MemoryRepo) (child : ChildRecord) (subject : String)
    (topic : Option String) (subtopic : Option String) (limit : ℕ)
    (generator : GenerationContext → List QuestionPayload) :
    QuestionBatch × MemoryRepo :=
  let subtopicR := resolveSubtopic st child subject topic subtopic
  let afterGen := fetchPicked st child subject topic subtopicR limit generator
  let stock_level := countQuestions afterGen.2 subject topic child.grade subtopicR
  let questions_being_served := afterGen.1.length
  let remaining_after_request : ℤ := (stock_level : ℤ) - (questions_being_served : ℤ)
  let stock_deficit := max (MIN_STOCK_THRESHOLD - remaining_after_request) 0
  ({ questions := afterGen.1.take limit, stock_deficit := stock_deficit,
     selected_subtopic := subtopicR }, afterGen.2)

/-! ## Concrete scenarios used by the theorems below -/

/-- Five unseen bank candidates for one tier. -/
def c1Unseen : List BankQuestion :=
  [⟨"u1", "hu1"⟩, ⟨"u2", "hu2"⟩, ⟨"u3", "hu3"⟩, ⟨"u4", "hu4"⟩, ⟨"u5", "hu5"⟩]

/-- Five seen bank candidates for the same tier. -/
def c1Seen : List BankQuestion :=
  [⟨"s1", "hs1"⟩, ⟨"s2", "hs2"⟩, ⟨"s3", "hs3"⟩, ⟨"s4", "hs4"⟩, ⟨"s5", "hs5"⟩]

/-- The learner's seen-set for the scenario above. -/
def c1SeenHashes : List String := ["hs1", "hs2", "hs3", "hs4", "hs5"]

/-- A quiz session that has already been completed. -/
def c2Session : QuizSessionRecord :=
  { id := "s1", child_id := "c1", subject := "math", topic := "addition",
    subtopic := none, status := "completed", duration_sec := 600,
    difficulty_mix_config := [], started_at := 0, submitted_at := some 300,
    score := some 80, total_questions := 5, created_at := some 0 }

/-- Repository holding only `c2Session` and its owning child. -/
def c2State : MemoryRepo :=
  { children := [{ id := "c1", parent_id := "p1", name := "kid", birthdate := none,
                   grade := some 4, zip := none }],
    quiz_sessions := [c2Session], clock := 400 }

/-- A bank question backing the active-session scenario. -/
def c3Question : QuestionRecord :=
  { id := "q1", standard_ref := "", subject := "math", grade := some 4,
    topic := some "addition", sub_topic := none, difficulty := some "easy",
    stem := "What is 2+2?", options := ["2", "3", "4", "5"], correct_answer := "4",
    rationale := some "2 plus 2 equals 4", source := some "seeded", hash := "h1",
    created_at := 0 }

/-- The single locked slot of the active session. -/
def c3Slot : QuizSessionQuestionRecord :=
  { id := "sq1", quiz_session_id := "s2", question_id := "q1", index := 0,
    correct_choice := "4", explanation := "2 plus 2 equals 4",
    selected_choice := none, is_correct := none }

/-- A session that is still `active` but was created 25 hours ago
(created_at 0, clock now 90000; 24 h = 86400 s). -/
def c3Session : QuizSessionRecord :=
  { id := "s2", child_id := "c1", subject := "math", topic := "addition",
    subtopic := none, status := "active", duration_sec := 600,
    difficulty_mix_config := [], started_at := 0, submitted_at := none,
    score := none, total_questions := 1, created_at := some 0 }

/-- Repository state for the 25-hour-old active session. -/
def c3State : MemoryRepo :=
  { children := [{ id := "c1", parent_id := "p1", name := "kid", birthdate := none,
                   grade := some 4, zip := none }],
    questions := [c3Question], quiz_sessions := [c3Session],
    quiz_session_questions := [c3Slot], clock := 90000 }

/-- A question payload carrying an explicit content hash and no id. -/
def c4Payload : QuestionPayload :=
  { stem := "What is 2+2?", options := ["1", "2", "3", "4"], correct_answer := "4",
    subject := some "math", topic := some "addition", difficulty := some "easy",
    source := some "generated", hash := some "deadbeef" }

/-- Three locked questions for the grading example. -/
def c6Questions : List LockedQuestion :=
  [{ question_id := "g1", index := 0, stem := "first", options := ["a", "b", "c", "d"],
     correct_choice := "a", explanation := "ea" },
   { question_id := "g2", index := 1, stem := "second", options := ["a", "b", "c", "d"],
     correct_choice := "b", explanation := "eb" },
   { question_id := "g3", index := 2, stem := "third", options := ["a", "b", "c", "d"],
     correct_choice := "c", explanation := "ec" }]

/-- Only question 1 is answered, correctly; the other two are left blank. -/
def c6Answers : List SubmittedAnswer := [⟨"g1", "a"⟩]

/-- One of twelve identical-shape bank questions of the stocked subtopic. -/
def c9Question (i : ℕ) : QuestionRecord :=
  { id := "q" ++ toString i, standard_ref := "", subject := "math", grade := some 4,
    topic := some "fractions", sub_topic := some "halves", difficulty := some "easy",
    stem := "stem " ++ toString i, options := ["a", "b", "c", "d"], correct_answer := "a",
    rationale := none, source := some "seeded", hash := "h" ++ toString i, created_at := i }

/-- The learner of the restock scenario. -/
def c9Child : ChildRecord :=
  { id := "c9", parent_id := "p9", name := "kid", birthdate := none, grade := some 4,
    zip := none }

/-- A bank holding exactly 12 questions of the subtopic `halves`. -/
def c9State : MemoryRepo :=
  { children := [c9Child], questions := (List.range 12).map c9Question, clock := 100 }

/-! ## Theorems -/

/-- C7: the difficulty sequencer is a pure function of the attempt history:
an empty history yields [easy, medium]; at least 10 attempts with accuracy
≥ 0.95 yields [medium, hard, easy]; otherwise accuracy ≥ 0.8 yields
[easy, medium, hard]; every remaining case yields [easy]. Accuracy is
correct/total over the entire history and both thresholds are inclusive:
19/20 gives [medium, hard, easy], 18/20 gives [easy, medium, hard], 7/10
gives [easy]. -/
theorem difficulty_sequencer_policy :
    (difficultySequence [] = ["easy", "medium"]) ∧
    (∀ a : List Bool, a ≠ [] → accuracyOf a ≥ 95/100 → a.length ≥ 10 →
      difficultySequence a = ["medium", "hard", "easy"]) ∧
    (∀ a : List Bool, a ≠ [] → ¬(accuracyOf a ≥ 95/100 ∧ a.length ≥ 10) →
      accuracyOf a ≥ 8/10 → difficultySequence a = ["easy", "medium", "hard"]) ∧
    (∀ a : List Bool, a ≠ [] → ¬(accuracyOf a ≥ 95/100 ∧ a.length ≥ 10) →
      ¬(accuracyOf a ≥ 8/10) → difficultySequence a = ["easy"]) ∧
    difficultySequence (List.replicate 19 true ++ [false]) = ["medium", "hard", "easy"] ∧
    difficultySequence (List.replicate 18 true ++ List.replicate 2 false) =
      ["easy", "medium", "hard"] ∧
    difficultySequence (List.replicate 7 true ++ List.replicate 3 false) = ["easy"] := by
  refine ⟨by decide, ?_, ?_, ?_, by with_unfolding_all decide, by with_unfolding_all decide,
    by with_unfolding_all decide⟩
  · intro a ha h95 h10
    simp only [difficultySequence, if_neg ha]
    rw [if_pos ⟨h95, h10⟩]
  · intro a ha hnot h80
    simp only [difficultySequence, if_neg ha]
    rw [if_neg hnot, if_pos h80]
  · intro a ha hnot hn80
    simp only [difficultySequence, if_neg ha]
    rw [if_neg hnot, if_neg hn80]

/-- Witness for `difficulty_sequencer_policy` at the 19/20 history. -/
theorem difficulty_sequencer_policy_witness :
    (List.replicate 19 true ++ [false]) ≠ [] ∧
    accuracyOf (List.replicate 19 true ++ [false]) ≥ 95/100 ∧
    (List.replicate 19 true ++ [false]).length ≥ 10 ∧
    difficultySequence (List.replicate 19 true ++ [false]) = ["medium", "hard", "easy"] :=
  ⟨by decide, by with_unfolding_all decide, by decide,
   difficulty_sequencer_policy.2.1 (List.replicate 19 true ++ [false]) (by decide)
     (by with_unfolding_all decide) (by decide)⟩

/-- C8: per-tier quiz targets are `round(count * mix[tier])`, with any
rounding drift absorbed by the medium bucket only, so the adjusted
targets always sum to exactly `count`; for count=11 and mix
0.3/0.5/0.2 the targets are easy=3, medium=6, hard=2. -/
theorem quiz_mix_targets :
    (∀ (count : ℕ) (me mm mh : ℚ),
      (targetCounts count me mm mh).easy + (targetCounts count me mm mh).medium +
          (targetCounts count me mm mh).hard = count ∧
      (targetCounts count me mm mh).easy = pyRound (count * me) ∧
      (targetCounts count me mm mh).hard = pyRound (count * mh)) ∧
    targetCounts 11 (3/10) (1/2) (1/5) = ⟨3, 6, 2⟩ := by
  refine ⟨?_, by with_unfolding_all decide⟩
  intro count me mm mh
  simp only [targetCounts]
  split
  next h =>
    refine ⟨?_, rfl, rfl⟩
    dsimp only
    ring
  next h =>
    split
    next h2 =>
      refine ⟨?_, rfl, rfl⟩
      dsimp only
      ring
    next h2 =>
      refine ⟨?_, rfl, rfl⟩
      dsimp only
      omega

/-- C1 (the claim fails on the code): the code shuffles the *whole*
concatenated `unseen + seen` list, not each partition separately, so a
possible shuffle outcome (here: reversal, a permutation of the
concatenation) puts seen candidates first; with 5 unseen and 5 seen
candidates and target 7 the selection then contains only 2 unseen and 5
seen questions, while the claim demands all 5 unseen plus exactly 2 seen. -/
theorem quiz_selection_shuffle_breaks_unseen_priority :
    ((c1Unseen ++ c1Seen).reverse).Perm (c1Unseen ++ c1Seen) ∧
    (selectForTier (c1Unseen ++ c1Seen) c1SeenHashes [] List.reverse 7).length = 7 ∧
    ((selectForTier (c1Unseen ++ c1Seen) c1SeenHashes [] List.reverse 7).filter
        fun q => !(c1SeenHashes.contains q.hash)).length = 2 ∧
    ((selectForTier (c1Unseen ++ c1Seen) c1SeenHashes [] List.reverse 7).filter
        fun q => c1SeenHashes.contains q.hash).length = 5 :=
  ⟨List.reverse_perm _, by decide, by decide, by decide⟩

/-- C2 (the claim fails on the code): `expire_quiz_session` sets the
status to `expired` unconditionally, so calling the expire route on a
`completed` session overwrites the terminal state instead of leaving the
session unchanged. -/
theorem expire_overwrites_completed_session :
    c2Session.status = "completed" ∧
    (expireQuizRoute c2State "p1" "s1").1 =
      ExpireOutcome.ok { c2Session with status := "expired" } ∧
    ((getQuizSession (expireQuizRoute c2State "p1" "s1").2 "s1").map fun s => s.status) =
      some "expired" :=
  ⟨rfl, by decide, by decide⟩

/-- C4 (the claim fails on the code): `upsert_question` keys the stored
row on `id` (drawing a fresh uuid when the payload has none) and never
consults the hash, so upserting the same payload twice stores two rows
with the same content hash; the bulk `insert_questions` path, by
contrast, is idempotent by hash. -/
theorem upsert_question_duplicates_hash :
    (((upsertQuestion (upsertQuestion ({} : MemoryRepo) c4Payload) c4Payload).questions.filter
        fun q => q.hash == "deadbeef").length = 2) ∧
    (((insertQuestions (insertQuestions ({} : MemoryRepo) [c4Payload]) [c4Payload]).questions.filter
        fun q => q.hash == "deadbeef").length = 1) :=
  ⟨by decide, by decide⟩

/-- C3 (the third part of the claim fails on the code): the submit route
checks only the session's stored status — `completed` gives
`AlreadySubmitted`, `expired` gives `Gone` — but performs no session-age
check, so submitting against a 25-hour-old session that is still
`active` succeeds and completes the session instead of expiring it and
failing with `Gone` (the 24-hour auto-expiry lives only in the
session-read route). -/
theorem submit_ignores_session_age :
    c3Session.status = "active" ∧
    c3State.clock = 90000 ∧ c3Session.created_at = some 0 ∧
    (submitQuizRoute c3State "p1" "s2" [⟨"q1", "4"⟩]).1.isOk = true ∧
    (submitQuizRoute c3State "p1" "s2" [⟨"q1", "4"⟩]).1 ≠ SubmitOutcome.gone ∧
    ((getQuizSession (submitQuizRoute c3State "p1" "s2" [⟨"q1", "4"⟩]).2 "s2").map
        fun s => s.status) = some "completed" := by
  refine ⟨rfl, rfl, rfl, ?_, ?_, ?_⟩ <;> with_unfolding_all decide

/-- The grading fold characterized: folding `gradeStep` over `qs` from
accumulator `(c, u, items)` adds the count of correctly answered slots,
the count of unanswered slots, and appends one incorrect item per
non-correct slot, carrying the selected choice or `""` when unanswered. -/
theorem gradeFold_spec (answers : List SubmittedAnswer) :
    ∀ (qs : List LockedQuestion) (c u : ℕ) (items : List IncorrectItem),
      qs.foldl (gradeStep answers) (c, u, items) =
        (c + qs.countP (fun q => answerLookup answers q.question_id == some q.correct_choice),
         u + qs.countP (fun q => (answerLookup answers q.question_id).isNone),
         items ++ (qs.filter (fun q =>
             !(answerLookup answers q.question_id == some q.correct_choice))).map
           (fun q => mkIncorrectItem q ((answerLookup answers q.question_id).getD ""))) := by
  intro qs
  induction qs with
  | nil => intro c u items; simp
  | cons q qs ih =>
    intro c u items
    rcases hl : answerLookup answers q.question_id with _ | sel
    · simp only [List.foldl_cons, gradeStep, hl]
      rw [ih]
      simp only [List.countP_cons, List.filter_cons, hl, Option.isNone_none, Option.getD_none,
        Prod.mk.injEq]
      refine ⟨by simp, by simp; omega, by simp [hl]⟩
    · by_cases hc : sel = q.correct_choice
      · simp only [List.foldl_cons, gradeStep, hl, if_pos hc]
        rw [ih]
        simp only [List.countP_cons, List.filter_cons, hl, hc, Prod.mk.injEq]
        refine ⟨by simp; omega, by simp, by simp⟩
      · simp only [List.foldl_cons, gradeStep, hl, if_neg hc]
        rw [ih]
        simp only [List.countP_cons, List.filter_cons, hl, Option.getD_some, Prod.mk.injEq]
        have hb : (some sel == some q.correct_choice) = false := by
          simp [hc]
        refine ⟨by simp [hb], by simp, by simp [hb, hl]⟩

/-- C6: grading counts a slot with no submitted answer as both unanswered
and incorrect (it appears in `incorrect_items` with an empty selected
choice and does not add to `correct_count`); a slot with an answer is
correct iff the selected choice equals the locked correct choice; the
score is round(correct_count / total_questions * 100); and 3 locked
questions with only question 1 answered correctly yield score 33,
unanswered_count 2 and two incorrect items. -/
theorem grade_quiz_spec :
    (∀ (qs : List LockedQuestion) (answers : List SubmittedAnswer) (t0 t1 : ℤ),
      (gradeQuiz qs answers t0 t1).correct_count =
          qs.countP (fun q => answerLookup answers q.question_id == some q.correct_choice) ∧
      (gradeQuiz qs answers t0 t1).unanswered_count =
          qs.countP (fun q => (answerLookup answers q.question_id).isNone) ∧
      (gradeQuiz qs answers t0 t1).incorrect_items =
          (qs.filter (fun q =>
              !(answerLookup answers q.question_id == some q.correct_choice))).map
            (fun q => mkIncorrectItem q ((answerLookup answers q.question_id).getD "")) ∧
      (gradeQuiz qs answers t0 t1).incorrect_items.length =
          qs.length - (gradeQuiz qs answers t0 t1).correct_count ∧
      (gradeQuiz qs answers t0 t1).score =
          (if qs.length = 0 then 0
           else pyRound (((gradeQuiz qs answers t0 t1).correct_count : ℚ) / (qs.length : ℚ) * 100))) ∧
    (gradeQuiz c6Questions c6Answers 0 45).score = 33 ∧
    (gradeQuiz c6Questions c6Answers 0 45).correct_count = 1 ∧
    (gradeQuiz c6Questions c6Answers 0 45).unanswered_count = 2 ∧
    (gradeQuiz c6Questions c6Answers 0 45).incorrect_items.length = 2 ∧
    ((gradeQuiz c6Questions c6Answers 0 45).incorrect_items.map fun item => item.selected_choice) =
      ["", ""] := by
  refine ⟨?_, by with_unfolding_all decide, by with_unfolding_all decide,
    by with_unfolding_all decide, by with_unfolding_all decide, by with_unfolding_all decide⟩
  intro qs answers t0 t1
  have h := gradeFold_spec answers qs 0 0 []
  simp only [gradeQuiz, h, Nat.zero_add, List.nil_append]
  refine ⟨trivial, trivial, trivial, ?_, trivial⟩
  rw [List.length_map, ← List.countP_eq_length_filter]
  have key : ∀ (l : List LockedQuestion) (p : LockedQuestion → Bool),
      l.countP (fun x => !(p x)) + l.countP p = l.length := by
    intro l p
    induction l with
    | nil => simp
    | cons x l ih => by_cases hx : p x <;> simp [List.countP_cons, hx, ih] <;> omega
  have hk := key qs (fun q => answerLookup answers q.question_id == some q.correct_choice)
  omega

/-- A slot's `is_correct` flag can become `some true` through
`applyAnswer` only from an answer dict whose `is_correct` key holds
`True`; with no such answer, the no-`some true` invariant over the
session's slots is preserved. -/
theorem applyAnswer_no_true (sid : String) (answer : RepoAnswer)
    (hans : answer.is_correct ≠ some true) (qs : List QuizSessionQuestionRecord)
    (hq : ∀ sq ∈ qs, sq.quiz_session_id = sid → sq.is_correct ≠ some true) :
    ∀ sq ∈ applyAnswer sid qs answer, sq.quiz_session_id = sid → sq.is_correct ≠ some true := by
  intro sq hsq hsid
  rcases List.mem_map.mp hsq with ⟨sq0, hmem, rfl⟩
  by_cases hc :
      (sq0.quiz_session_id == sid && sq0.question_id == answer.question_id) = true
  · simp only [hc, if_pos]
    rcases hb : answer.is_correct with _ | b
    · simp
    · rcases b with _ | _
      · simp
      · exact absurd hb hans
  · simp only [hc]
    rw [if_neg (by simp [hc])]
    exact hq sq0 hmem (by
      have := List.mem_map.mp hsq
      by_cases h2 : (sq0.quiz_session_id == sid && sq0.question_id == answer.question_id) = true
      · exact absurd h2 hc
      · simpa [h2] using hsid)

/-- Folding route-built answers over the slots preserves the
no-`some true` invariant. -/
theorem submitAnswers_no_true (sid : String) :
    ∀ (answers : List RepoAnswer), (∀ a ∈ answers, a.is_correct ≠ some true) →
    ∀ (qs : List QuizSessionQuestionRecord),
      (∀ sq ∈ qs, sq.quiz_session_id = sid → sq.is_correct ≠ some true) →
      ∀ sq ∈ answers.foldl (applyAnswer sid) qs, sq.quiz_session_id = sid →
        sq.is_correct ≠ some true := by
  intro answers
  induction answers with
  | nil => intro _ qs hq; exact hq
  | cons a answers ih =>
    intro hans qs hq
    simp only [List.foldl_cons]
    exact ih (fun x hx => hans x (List.mem_cons_of_mem _ hx)) _
      (applyAnswer_no_true sid a (hans a (List.mem_cons_self _ _)) qs hq)

/-- After a dict update whose key is already present, looking the key up
returns the updated record. -/
theorem find_map_update (r : QuizSessionRecord) (sid : String)
    (hid : (r.id == sid) = true) :
    ∀ ss : List QuizSessionRecord, ss.any (fun s => s.id == r.id) = true →
      ((ss.map fun s => if s.id == r.id then r else s).find? fun s => s.id == sid) = some r := by
  intro ss
  induction ss with
  | nil => intro hany; simp at hany
  | cons s ss ih =>
    intro hany
    simp only [List.any_cons, Bool.or_eq_true] at hany
    simp only [List.map_cons]
    by_cases hc : (s.id == r.id) = true
    · rw [if_pos hc]
      exact List.find?_cons_of_pos _ hid
    · rw [if_neg hc]
      have hs2 : ¬((s.id == sid) = true) := by
        intro h2
        apply hc
        rw [beq_iff_eq] at h2 hid ⊢
        rw [h2, hid]
      have hs3 : (s.id == sid) = false := by
        cases h : (s.id == sid) with
        | false => rfl
        | true => exact absurd h hs2
      simp only [List.find?_cons, hs3]
      exact ih (hany.resolve_left hc)

/-- `pyRound 0 = 0`. -/
theorem pyRound_zero : pyRound 0 = 0 := by with_unfolding_all decide

/-- With answers that never carry a true `is_correct` (as the route
builds them) and no pre-existing `some true` flag, the recounted score
of `submit_quiz_session` is 0. -/
theorem submitScore_route_answers (st : MemoryRepo) (session_id : String)
    (answers : List RepoAnswer) (hans : ∀ a ∈ answers, a.is_correct ≠ some true)
    (hno : ∀ sq ∈ st.quiz_session_questions, sq.quiz_session_id = session_id →
      sq.is_correct ≠ some true) :
    submitScore st session_id answers = 0 := by
  unfold submitScore
  have hupd := submitAnswers_no_true session_id answers hans st.quiz_session_questions hno
  have hfil : ((answers.foldl (applyAnswer session_id) st.quiz_session_questions).filter
      (fun q => q.quiz_session_id == session_id)).filter
        (fun q => q.is_correct == some true) = [] := by
    rw [List.filter_eq_nil_iff]
    intro x hx
    have hx1 := (List.mem_filter.mp hx).1
    have hx2 := (List.mem_filter.mp hx).2
    have hxx := hupd x hx1 (by rwa [beq_iff_eq] at hx2)
    simp [hxx]
  dsimp only
  rw [hfil]
  simp [pyRound_zero]

/-- `submit_quiz_session`, evaluated when the session exists. -/
theorem submitQuizSession_of_found (st : MemoryRepo) (session_id : String)
    (answers : List RepoAnswer) (session : QuizSessionRecord)
    (hs : (st.quiz_sessions.find? fun s => s.id == session_id) = some session) :
    submitQuizSession st session_id answers =
      (some { session with
                status := "completed", submitted_at := some st.clock,
                score := some (submitScore st session_id answers) },
       { st with
           quiz_session_questions :=
             answers.foldl (applyAnswer session_id) st.quiz_session_questions,
           quiz_sessions :=
             dictUpdateSession st.quiz_sessions
               { session with
                   status := "completed", submitted_at := some st.clock,
                   score := some (submitScore st session_id answers) },
           clock := st.clock + 1 }) := by
  unfold submitQuizSession
  rw [hs]

/-- Looking a session id up after the dict update that `submit` performs
returns the updated record. -/
theorem getQuizSession_after_update (st : MemoryRepo) (session_id : String)
    (session r : QuizSessionRecord)
    (hs : (st.quiz_sessions.find? fun s => s.id == session_id) = some session)
    (hid : r.id = session.id) :
    ((dictUpdateSession st.quiz_sessions r).find? fun s => s.id == session_id) = some r := by
  have hps := List.find?_some hs
  have hmem := List.mem_of_find?_eq_some hs
  have hany : (st.quiz_sessions.any fun s => s.id == r.id) = true :=
    List.any_eq_true.mpr ⟨session, hmem, by rw [beq_iff_eq, hid]⟩
  unfold dictUpdateSession
  rw [if_pos hany]
  exact find_map_update r session_id
    (by rw [beq_iff_eq] at hps ⊢; rw [hid]; exact hps) _ hany

/-- C5: the submit route builds each persisted answer dict as
(question_id, selected_choice) only, and `submit_quiz_session` counts a
slot as correct only when the answer dict carries a true `is_correct`
field; hence every successful submission through the route stores score 0
on the session, whatever was answered and whatever `grade_quiz` returned
to the client. -/
theorem route_submission_stores_zero_score :
    ∀ (st : MemoryRepo) (parent_id session_id : String) (answers : List SubmittedAnswer),
      (∀ sq ∈ st.quiz_session_questions, sq.quiz_session_id = session_id →
        sq.is_correct ≠ some true) →
      (st.quiz_session_questions.filter fun q => q.quiz_session_id == session_id) ≠ [] →
      (submitQuizRoute st parent_id session_id answers).1.isOk = true →
      ((getQuizSession (submitQuizRoute st parent_id session_id answers).2 session_id).map
          fun s => s.score) = some (some 0) := by
  intro st parent_id session_id answers hno hne hok
  unfold submitQuizRoute at hok ⊢
  rcases hs : getQuizSession st session_id with _ | session
  · simp [hs, SubmitOutcome.isOk] at hok
  · simp only [hs] at hok
    by_cases hb : childBelongsToParent st session.child_id parent_id
    case neg =>
      simp [hb, SubmitOutcome.isOk] at hok
    case pos =>
      by_cases hc1 : session.status = "completed"
      case pos =>
        simp [hb, hc1, SubmitOutcome.isOk] at hok
      case neg =>
        by_cases hc2 : session.status = "expired"
        case pos =>
          simp [hb, hc1, hc2, SubmitOutcome.isOk] at hok
        case neg =>
          have hs' : (st.quiz_sessions.find? fun s => s.id == session_id) = some session := hs
          have hrw := submitQuizSession_of_found st session_id
            (answers.map fun a =>
              { question_id := a.question_id, selected_choice := some a.selected_choice,
                is_correct := none })
            session hs'
          simp only [hb, hc1, hc2, beq_iff_eq, Bool.not_true, Bool.not_false, if_true,
            if_false, ite_true, ite_false, if_neg, hrw]
          rw [getQuizSession]
          simp only [show (false = true) = False from by simp, if_false]
          rw [getQuizSession_after_update st session_id session
            { session with
                status := "completed", submitted_at := some st.clock,
                score := some (submitScore st session_id
                  (answers.map fun a =>
                    { question_id := a.question_id,
                      selected_choice := some a.selected_choice,
                      is_correct := none })) }
            hs' rfl]
          have hz := submitScore_route_answers st session_id
            (answers.map fun a =>
              { question_id := a.question_id, selected_choice := some a.selected_choice,
                is_correct := none })
            (by intro a ha
                rcases List.mem_map.mp ha with ⟨b, hbmem, rfl⟩
                simp)
            hno
          simp [hz]

/-- Witness for `route_submission_stores_zero_score`: submitting the
correct answer to the one-question active session still stores score 0. -/
theorem route_submission_stores_zero_score_witness :
    (∀ sq ∈ c3State.quiz_session_questions, sq.quiz_session_id = "s2" →
      sq.is_correct ≠ some true) ∧
    (c3State.quiz_session_questions.filter fun q => q.quiz_session_id == "s2") ≠ [] ∧
    (submitQuizRoute c3State "p1" "s2" [⟨"q1", "4"⟩]).1.isOk = true ∧
    ((getQuizSession (submitQuizRoute c3State "p1" "s2" [⟨"q1", "4"⟩]).2 "s2").map
        fun s => s.score) = some (some 0) :=
  ⟨by decide, by decide, by with_unfolding_all decide,
   route_submission_stores_zero_score c3State "p1" "s2" [⟨"q1", "4"⟩] (by decide) (by decide)
     (by with_unfolding_all decide)⟩

/-- The pick loop never exceeds `limit` picked questions. -/
theorem pickFold_length_le (limit : ℕ) :
    ∀ (qs : List QuestionPayload) (acc : List QuestionPayload × List String),
      acc.1.length ≤ limit → ((qs.foldl (pickStep limit) acc).1).length ≤ limit := by
  intro qs
  induction qs with
  | nil => intro acc h; exact h
  | cons q qs ih =>
    intro acc h
    simp only [List.foldl_cons]
    apply ih
    unfold pickStep
    split
    · exact h
    · split
      · exact h
      · next hge hcon =>
          simp only [List.length_append, List.length_cons, List.length_nil]
          omega

/-- `pickPhase` picks at most `limit` questions. -/
theorem pickPhase_length_le (st : MemoryRepo) (child : ChildRecord) (subject : String)
    (topic : Option String) (subtopic : Option String) (limit : ℕ) :
    (pickPhase st child subject topic subtopic limit).1.length ≤ limit := by
  unfold pickPhase
  exact pickFold_length_le limit _ _ (by simp)

/-- The picking-and-generation phase serves at most `limit` questions:
any deficit is filled with at most `deficit = limit - picked` generated
questions. -/
theorem fetchPicked_length_le (st : MemoryRepo) (child : ChildRecord) (subject : String)
    (topic : Option String) (subtopic : Option String) (limit : ℕ)
    (generator : GenerationContext → List QuestionPayload) :
    (fetchPicked st child subject topic subtopic limit generator).1.length ≤ limit := by
  have hp := pickPhase_length_le st child subject topic subtopic limit
  unfold fetchPicked
  dsimp only
  split
  · split
    · simp only [List.length_append, List.length_take]
      omega
    · exact hp
  · exact hp

/-- C9: for every `fetch_batch` call the restock signal equals
`max(MIN_STOCK_THRESHOLD − (bank count for the exact
subject/topic/grade/subtopic key − questions served in this batch), 0)`,
attributed to the resolved subtopic carried in the batch result; in the
worked example, serving 5 questions from a subtopic stocked with exactly
12 yields `stock_deficit = 3` for that exact subtopic. -/
theorem fetch_batch_restock_spec :
    (∀ (st : MemoryRepo) (child : ChildRecord) (subject : String)
        (topic subtopic : Option String) (limit : ℕ)
        (generator : GenerationContext → List QuestionPayload),
      (fetchBatch st child subject topic subtopic limit generator).1.stock_deficit =
        max (MIN_STOCK_THRESHOLD -
          (((countQuestions (fetchBatch st child subject topic subtopic limit generator).2
              subject topic child.grade
              (fetchBatch st child subject topic subtopic limit generator).1.selected_subtopic : ℤ)) -
            ((fetchBatch st child subject topic subtopic limit generator).1.questions.length : ℤ))) 0 ∧
      (fetchBatch st child subject topic subtopic limit generator).1.selected_subtopic =
        resolveSubtopic st child subject topic subtopic) ∧
    ((fetchBatch c9State c9Child "math" (some "fractions") (some "halves") 5
        fun _ => []).1.stock_deficit = 3 ∧
     (fetchBatch c9State c9Child "math" (some "fractions") (some "halves") 5
        fun _ => []).1.selected_subtopic = some "halves" ∧
     (fetchBatch c9State c9Child "math" (some "fractions") (some "halves") 5
        fun _ => []).1.questions.length = 5 ∧
     countQuestions c9State "math" (some "fractions") (some 4) (some "halves") = 12) := by
  refine ⟨?_, by with_unfolding_all decide, by with_unfolding_all decide,
    by with_unfolding_all decide, by with_unfolding_all decide⟩
  intro st child subject topic subtopic limit generator
  have h := fetchPicked_length_le st child subject topic
    (resolveSubtopic st child subject topic subtopic) limit generator
  unfold fetchBatch
  dsimp only
  have hlen : ((fetchPicked st child subject topic
      (resolveSubtopic st child subject topic subtopic) limit generator).1.take limit).length =
      (fetchPicked st child subject topic
        (resolveSubtopic st child subject topic subtopic) limit generator).1.length := by
    rw [List.length_take]
    omega
  rw [hlen]
  exact ⟨rfl, rfl⟩

set_option maxRecDepth 100000 in
/-- C10: the content fingerprint is deterministic — equal (stem, options,
answer) inputs give equal digests — and sensitive to option order: the
same stem and answer with the options list reordered (a permutation)
yields a different digest, so such questions are treated as distinct. -/
theorem hash_question_order_sensitive :
    (∀ (stem stem2 : String) (options options2 : List String) (answer answer2 : String),
      stem = stem2 → options = options2 → answer = answer2 →
      hashQuestion stem options answer = hashQuestion stem2 options2 answer2) ∧
    hashQuestion "What is 2+2?" ["3", "4"] "4" ≠ hashQuestion "What is 2+2?" ["4", "3"] "4" ∧
    List.Perm ["4", "3"] ["3", "4"] := by
  refine ⟨?_, by with_unfolding_all decide, by decide⟩
  intro s s2 o o2 a a2 hs ho ha
  rw [hs, ho, ha]

/-- Witness for `hash_question_order_sensitive`: determinism applied at a
concrete input. -/
theorem hash_question_order_sensitive_witness :
    "q" = "q" ∧ (["a", "b"] : List String) = ["a", "b"] ∧ "a" = "a" ∧
    hashQuestion "q" ["a", "b"] "a" = hashQuestion "q" ["a", "b"] "a" :=
  ⟨rfl, rfl, rfl,
   hash_question_order_sensitive.1 "q" "q" ["a", "b"] ["a", "b"] "a" "a" rfl rfl rfl⟩
